import Mathlib

/-!
Shallow embedding of the operation-execution core of a MongoDB node driver:
the retry-eligibility predicates of `src/operations/update.ts` and
`src/operations/delete.ts`, the profiling-level operation, and the admin
facade of `lib/admin.js` (write-concern resolver, `validateCollection`,
`serverStatus`, `replSetGetStatus`).
-/

/-- A flat model of the JavaScript values that flow through the embedded
functions: `undefined`, `null`, booleans, numbers, strings, and objects
(represented by their key list, which is all the embedded code inspects). -/
inductive JSValue where
  | undef
  | null
  | boolean (b : Bool)
  | num (n : Int)
  | str (s : String)
  | obj (keys : List String)
deriving DecidableEq, Repr

/-- JavaScript truthiness of a value. -/
def jsTruthy : JSValue → Bool
  | .undef => false
  | .null => false
  | .boolean b => b
  | .num n => decide (n ≠ 0)
  | .str s => decide (s ≠ "")
  | .obj _ => true

/-- JavaScript loose equality to null (`v == null`): true exactly for
`null` and `undefined`. -/
def jsLooseNull : JSValue → Bool
  | .undef => true
  | .null => true
  | _ => false

/-- Whether a JavaScript value is a string (`v.constructor === String`). -/
def jsIsString : JSValue → Bool
  | .str _ => true
  | _ => false

/-- An update sub-operation descriptor; the retry predicate inspects only
its `multi` flag, which in the source is an arbitrary JavaScript value. -/
structure UpdateSubOp where
  multi : JSValue
deriving DecidableEq, Repr

/-- `UpdateOperation` from `src/operations/update.ts`: carries the ordered
array of update sub-operations (namespace and options are irrelevant to the
embedded predicate). -/
structure UpdateOperation where
  operations : List UpdateSubOp
deriving DecidableEq, Repr

/-- `UpdateOperation.canRetryWrite`:
`this.operations.every(op => op.multi == null || op.multi === false)`. -/
def UpdateOperation.canRetryWrite (self : UpdateOperation) : Bool :=
  self.operations.all fun op => jsLooseNull op.multi || op.multi == JSValue.boolean false

/-- A delete sub-operation descriptor; the retry predicate inspects only
its `limit`, an optional number (`undefined` when unset). -/
structure DeleteSubOp where
  limit : Option Int
deriving DecidableEq, Repr

/-- `DeleteOperation` from `src/operations/delete.ts`. -/
structure DeleteOperation where
  operations : List DeleteSubOp
deriving DecidableEq, Repr

/-- `DeleteOperation.canRetryWrite`:
`this.operations.every(op => (typeof op.limit !== 'undefined' ? op.limit > 0 : true))`. -/
def DeleteOperation.canRetryWrite (self : DeleteOperation) : Bool :=
  self.operations.all fun op =>
    match op.limit with
    | some l => decide (0 < l)
    | none => true

/-- C1: For every update sub-operation array, `UpdateOperation.canRetryWrite`
is true iff every element's `multi` flag is absent (`null`/`undefined`) or
explicitly `false`; in particular `[{multi:false}]` yields true,
`[{multi:true}]` yields false, `[{}, {multi:false}]` yields true and
`[{}, {multi:true}]` yields false. -/
theorem c1_update_canRetryWrite_iff :
    (∀ ops : List UpdateSubOp,
      (UpdateOperation.canRetryWrite ⟨ops⟩ = true ↔
        ∀ op ∈ ops, op.multi = JSValue.undef ∨ op.multi = JSValue.null ∨
          op.multi = JSValue.boolean false)) ∧
    UpdateOperation.canRetryWrite ⟨[⟨JSValue.boolean false⟩]⟩ = true ∧
    UpdateOperation.canRetryWrite ⟨[⟨JSValue.boolean true⟩]⟩ = false ∧
    UpdateOperation.canRetryWrite ⟨[⟨JSValue.undef⟩, ⟨JSValue.boolean false⟩]⟩ = true ∧
    UpdateOperation.canRetryWrite ⟨[⟨JSValue.undef⟩, ⟨JSValue.boolean true⟩]⟩ = false := by
  refine ⟨fun ops => ?_, by decide, by decide, by decide, by decide⟩
  simp only [UpdateOperation.canRetryWrite, List.all_eq_true, Bool.or_eq_true, beq_iff_eq]
  constructor
  · intro h op hop
    rcases h op hop with h' | h'
    · cases hm : op.multi <;> simp [hm, jsLooseNull] at h' ⊢
    · exact Or.inr (Or.inr h')
  · intro h op hop
    rcases h op hop with h' | h' | h' <;> simp [h', jsLooseNull]

/-- C1 witness: the equivalence applied to the concrete array `[{multi:false}]`. -/
theorem c1_update_canRetryWrite_iff_witness :
    UpdateOperation.canRetryWrite ⟨[⟨JSValue.boolean false⟩]⟩ = true :=
  (c1_update_canRetryWrite_iff.1 [⟨JSValue.boolean false⟩]).mpr (by decide)

/-- C2: For every delete sub-operation array, `DeleteOperation.canRetryWrite`
is true iff every element's `limit` is unset (`undefined`) or greater than 0;
in particular `[{limit:1}]` yields true, `[{limit:0}]` yields false, `[{}]`
yields true and `[{limit:1},{limit:0}]` yields false. -/
theorem c2_delete_canRetryWrite_iff :
    (∀ ops : List DeleteSubOp,
      (DeleteOperation.canRetryWrite ⟨ops⟩ = true ↔
        ∀ op ∈ ops, op.limit = none ∨ ∃ l : Int, op.limit = some l ∧ 0 < l)) ∧
    DeleteOperation.canRetryWrite ⟨[⟨some 1⟩]⟩ = true ∧
    DeleteOperation.canRetryWrite ⟨[⟨some 0⟩]⟩ = false ∧
    DeleteOperation.canRetryWrite ⟨[⟨none⟩]⟩ = true ∧
    DeleteOperation.canRetryWrite ⟨[⟨some 1⟩, ⟨some 0⟩]⟩ = false := by
  refine ⟨fun ops => ?_, by decide, by decide, by decide, by decide⟩
  simp only [DeleteOperation.canRetryWrite, List.all_eq_true]
  constructor
  · intro h op hop
    have h' := h op hop
    cases hl : op.limit with
    | none => exact Or.inl rfl
    | some l =>
      rw [hl] at h'
      exact Or.inr ⟨l, rfl, by simpa using h'⟩
  · intro h op hop
    rcases h op hop with h' | ⟨l, hl, hpos⟩
    · simp [h']
    · simp [hl, hpos]

/-- C2 witness: the equivalence applied to the concrete array `[{limit:1}]`. -/
theorem c2_delete_canRetryWrite_iff_witness :
    DeleteOperation.canRetryWrite ⟨[⟨some 1⟩]⟩ = true :=
  (c2_delete_canRetryWrite_iff.1 [⟨some 1⟩]).mpr (by decide)

/-- C10: On the empty sub-operation array both retry predicates hold
vacuously: an update or delete operation constructed with zero
sub-operations reports itself retry-eligible. -/
theorem c10_empty_operations_retryable :
    UpdateOperation.canRetryWrite ⟨[]⟩ = true ∧
    DeleteOperation.canRetryWrite ⟨[]⟩ = true := by
  constructor <;> rfl

/-- The recognized symbolic profiling levels
(`const levelValues = new Set(['off', 'slow_only', 'all'])`). -/
def levelValues : List String := ["off", "slow_only", "all"]

/-- `SetProfilingLevelOperation` state set by its constructor: the symbolic
level passed in and the integer computed from it at construction time. -/
structure SetProfilingLevelOperation where
  level : String
  profile : Int
deriving DecidableEq, Repr

/-- The `SetProfilingLevelOperation` constructor: `let profile = 0`, then
`off ↦ 0`, `slow_only ↦ 1`, `all ↦ 2` (anything else keeps the initial 0). -/
def SetProfilingLevelOperation.construct (level : String) : SetProfilingLevelOperation :=
  { level := level
    profile :=
      if level = "off" then 0
      else if level = "slow_only" then 1
      else if level = "all" then 2
      else 0 }

/-- The server's reply to the `{profile: N}` command: the transport error, if
any, and the response document's `ok` field. -/
structure ProfilingReply where
  err : Option String
  ok : Int
deriving DecidableEq, Repr

deriving instance DecidableEq for Except

/-- Outcome of `SetProfilingLevelOperation.execute`: either the callback is
invoked with an error before any command is issued, or the command
`{profile: N}` is issued and the callback receives the outcome of the reply. -/
inductive ProfilingResult where
  | immediateError (msg : String)
  | commandIssued (profile : Int) (outcome : Except String String)
deriving DecidableEq, Repr

/-- `SetProfilingLevelOperation.execute`: rejects a level outside
`levelValues` before issuing any command; otherwise issues
`{profile: this.profile}` and on `err == null && doc.ok === 1` delivers the
symbolic level, else the transport error or a generic command failure. -/
def SetProfilingLevelOperation.execute (self : SetProfilingLevelOperation)
    (reply : ProfilingReply) : ProfilingResult :=
  if ¬ levelValues.contains self.level then
    .immediateError ("Error: illegal profiling level value " ++ self.level)
  else
    .commandIssued self.profile
      (if reply.err = none ∧ reply.ok = 1 then .ok self.level
       else
         match reply.err with
         | some e => .error e
         | none => .error "Error with profile command")

/-- The profile integer an execution sent to the server, `none` when the
execution failed before issuing a command. -/
def ProfilingResult.issuedProfile : ProfilingResult → Option Int
  | .immediateError _ => none
  | .commandIssued p _ => some p

/-- C5: `setProfilingLevel` maps `off ↦ 0`, `slow_only ↦ 1`, `all ↦ 2` and
issues `{profile: N}` with that integer; for any level outside these three
values it issues no command and fails immediately with an error. -/
theorem c5_setProfilingLevel_mapping :
    (∀ reply : ProfilingReply,
      ((SetProfilingLevelOperation.construct "off").execute reply).issuedProfile = some 0 ∧
      ((SetProfilingLevelOperation.construct "slow_only").execute reply).issuedProfile = some 1 ∧
      ((SetProfilingLevelOperation.construct "all").execute reply).issuedProfile = some 2) ∧
    (∀ level : String, level ∉ levelValues → ∀ reply : ProfilingReply,
      (SetProfilingLevelOperation.construct level).execute reply =
        .immediateError ("Error: illegal profiling level value " ++ level)) := by
  constructor
  · intro reply
    refine ⟨?_, ?_, ?_⟩ <;>
      simp [SetProfilingLevelOperation.construct, SetProfilingLevelOperation.execute,
        levelValues, ProfilingResult.issuedProfile]
  · intro level hlevel reply
    simp [SetProfilingLevelOperation.construct, SetProfilingLevelOperation.execute, hlevel]

/-- C5 witness: the mapping at the reply `{ok:1}` and the rejection of the
level `"bogus"`. -/
theorem c5_setProfilingLevel_mapping_witness :
    ((SetProfilingLevelOperation.construct "off").execute ⟨none, 1⟩).issuedProfile = some 0 ∧
    (SetProfilingLevelOperation.construct "bogus").execute ⟨none, 1⟩ =
      .immediateError "Error: illegal profiling level value bogus" :=
  ⟨(c5_setProfilingLevel_mapping.1 ⟨none, 1⟩).1,
   c5_setProfilingLevel_mapping.2 "bogus" (by decide) ⟨none, 1⟩⟩

/-- C8: On a successful `setProfilingLevel` call whose response has
`ok === 1`, the value delivered to the caller is the original symbolic level
string (for `"all"`, the string `"all"`, not the integer 2 that was sent). -/
theorem c8_setProfilingLevel_returns_symbolic_level :
    (∀ level : String, level ∈ levelValues →
      (SetProfilingLevelOperation.construct level).execute ⟨none, 1⟩ =
        .commandIssued (SetProfilingLevelOperation.construct level).profile (.ok level)) ∧
    (SetProfilingLevelOperation.construct "all").execute ⟨none, 1⟩ =
      .commandIssued 2 (Except.ok "all") := by
  constructor
  · intro level hlevel
    simp [SetProfilingLevelOperation.execute, SetProfilingLevelOperation.construct, hlevel]
  · rfl

/-- C8 witness: the general statement applied to the level `"slow_only"`. -/
theorem c8_setProfilingLevel_returns_symbolic_level_witness :
    (SetProfilingLevelOperation.construct "slow_only").execute ⟨none, 1⟩ =
      .commandIssued (SetProfilingLevelOperation.construct "slow_only").profile
        (Except.ok "slow_only") :=
  c8_setProfilingLevel_returns_symbolic_level.1 "slow_only" (by decide)

/-- An options bag as seen by the write-concern resolver: the four
write-concern keys, each absent (`none`) or present with a JavaScript value. -/
structure WCOptions where
  w : Option JSValue
  wtimeout : Option JSValue
  j : Option JSValue
  fsync : Option JSValue
deriving DecidableEq, Repr

/-- A database handle as the resolver sees it: its optional `writeConcern`
default. -/
structure AdminDb where
  writeConcern : Option WCOptions
deriving DecidableEq, Repr

/-- `shallowClone(options)` from `lib/utils`: produces a fresh object with
the same own properties, which on this value model is the identity. -/
def shallowClone (options : WCOptions) : WCOptions :=
  { w := options.w, wtimeout := options.wtimeout, j := options.j, fsync := options.fsync }

/-- JavaScript truthiness of a possibly-absent property: an absent property
reads as `undefined`, which is falsy. -/
def propTruthy : Option JSValue → Bool
  | none => false
  | some v => jsTruthy v

/-- The `writeConcern` resolver of `lib/admin.js`: clones the options,
returns the clone if any of `w`/`wtimeout`/`j`/`fsync` is truthy, and
otherwise runs the overlay block, each of whose assignments is again guarded
by truthiness of the clone's own field
(`if (options.w) options.w = db.writeConcern.w;` and likewise for the other
three keys). -/
def writeConcern (options : WCOptions) (db : AdminDb) : WCOptions :=
  let options := shallowClone options
  if propTruthy options.w || propTruthy options.wtimeout ||
      propTruthy options.j || propTruthy options.fsync then
    options
  else
    match db.writeConcern with
    | none => options
    | some dwc =>
      let options := if propTruthy options.w then { options with w := dwc.w } else options
      let options :=
        if propTruthy options.wtimeout then { options with wtimeout := dwc.wtimeout } else options
      let options := if propTruthy options.j then { options with j := dwc.j } else options
      let options := if propTruthy options.fsync then { options with fsync := dwc.fsync } else options
      options

/-- The resolver never changes the options it was given: whenever the truthy
guard fails, every overlay assignment is guarded by truthiness of the same
already-falsy field, so the overlay block is dead code. -/
theorem writeConcern_eq_shallowClone (options : WCOptions) (db : AdminDb) :
    writeConcern options db = shallowClone options := by
  unfold writeConcern
  by_cases hw : propTruthy (shallowClone options).w
  · simp [hw]
  · by_cases hwt : propTruthy (shallowClone options).wtimeout
    · simp [hwt]
    · by_cases hj : propTruthy (shallowClone options).j
      · simp [hj]
      · by_cases hf : propTruthy (shallowClone options).fsync
        · simp [hf]
        · cases db.writeConcern <;> simp_all

/-- C3 counterpart at the claim's failing input: with caller options
specifying none of the four keys and a database default of `{w:2}`, the
resolver returns the empty options bag — the default `w:2` is never copied,
because each overlay assignment re-tests the caller's own falsy field. -/
theorem c3_overlay_never_applies :
    writeConcern ⟨none, none, none, none⟩ ⟨some ⟨some (JSValue.num 2), none, none, none⟩⟩ =
      ⟨none, none, none, none⟩ ∧
    writeConcern ⟨none, none, none, none⟩ ⟨some ⟨some (JSValue.num 2), none, none, none⟩⟩ ≠
      ⟨some (JSValue.num 2), none, none, none⟩ ∧
    writeConcern ⟨some (JSValue.num 1), none, none, none⟩
        ⟨some ⟨some (JSValue.num 2), none, none, none⟩⟩ =
      ⟨some (JSValue.num 1), none, none, none⟩ := by
  refine ⟨rfl, by decide, rfl⟩

/-- C7: If the caller's options contain any of the keys `w`, `wtimeout`,
`j`, `fsync` — even with a falsy value such as `w: 0` or `j: false` — the
resolver returns a shallow copy of the options unchanged, ignoring the
database default. -/
theorem c7_present_key_returns_options_unchanged (options : WCOptions) (db : AdminDb)
    (hpresent : options.w ≠ none ∨ options.wtimeout ≠ none ∨
      options.j ≠ none ∨ options.fsync ≠ none) :
    writeConcern options db = shallowClone options :=
  writeConcern_eq_shallowClone options db

/-- C7 witness: options with a present but falsy `w: 0` and a database
default of `{w:2}` come back unchanged. -/
theorem c7_present_key_returns_options_unchanged_witness :
    writeConcern ⟨some (JSValue.num 0), none, none, none⟩
        ⟨some ⟨some (JSValue.num 2), none, none, none⟩⟩ =
      shallowClone ⟨some (JSValue.num 0), none, none, none⟩ :=
  c7_present_key_returns_options_unchanged ⟨some (JSValue.num 0), none, none, none⟩
    ⟨some ⟨some (JSValue.num 2), none, none, none⟩⟩ (Or.inl (by decide))

/-- Whether `needle` occurs as a contiguous substring of `hay`. -/
def containsSub (needle hay : String) : Bool :=
  hay.toList.tails.any fun t => needle.toList.isPrefixOf t

/-- The regex test `doc.result.match(/exception|corrupt/) != null` of
`validateCollection`, applied to a JavaScript value: matches only on a
string containing `exception` or `corrupt` (the non-string arms are
unreachable behind the preceding string check). -/
def jsMatchExcCorrupt : JSValue → Bool
  | .str s => containsSub "exception" s || containsSub "corrupt" s
  | _ => false

/-- The response document `validateCollection` inspects: its `ok` field and
the `result` and `valid` fields, each an arbitrary JavaScript value
(`undef` when absent). -/
structure ValidateDoc where
  ok : Int
  result : JSValue
  valid : JSValue
deriving DecidableEq, Repr

/-- The response-acceptance check of `validateCollection` in `lib/admin.js`,
run on the document the `{validate: collectionName, ...}` command returned:
`doc.ok === 0` fails; `doc.result != null && doc.result.constructor !== String`
fails; `doc.result != null && doc.result.match(/exception|corrupt/) != null`
fails; `doc.valid != null && !doc.valid` fails; otherwise the raw document is
returned. -/
def validateCollection (collectionName : String) (doc : ValidateDoc) :
    Except String ValidateDoc :=
  if doc.ok = 0 then .error "Error with validate command"
  else if !jsLooseNull doc.result && !jsIsString doc.result then
    .error "Error with validation data"
  else if !jsLooseNull doc.result && jsMatchExcCorrupt doc.result then
    .error ("Error: invalid collection " ++ collectionName)
  else if !jsLooseNull doc.valid && !jsTruthy doc.valid then
    .error ("Error: invalid collection " ++ collectionName)
  else .ok doc

/-- C4: `validateCollection` runs its four checks in order, each failure
short-circuiting the rest: `ok === 0` fails first regardless of the other
fields; then a present non-string `result` fails; then a `result` string
containing `exception` or `corrupt` fails; then an explicit `valid === false`
fails. In particular `{ok:1, valid:false}` fails with an invalid-collection
error even though `ok === 1`, `{ok:1, result:"exception caught"}` fails, and
`{ok:1, valid:true}` succeeds returning the raw document. -/
theorem c4_validateCollection_checks :
    (∀ (name : String) (doc : ValidateDoc), doc.ok = 0 →
      validateCollection name doc = .error "Error with validate command") ∧
    (∀ (name : String) (doc : ValidateDoc), doc.ok ≠ 0 →
      jsLooseNull doc.result = false → jsIsString doc.result = false →
      validateCollection name doc = .error "Error with validation data") ∧
    (∀ (name : String) (doc : ValidateDoc) (s : String), doc.ok ≠ 0 →
      doc.result = JSValue.str s → jsMatchExcCorrupt doc.result = true →
      validateCollection name doc = .error ("Error: invalid collection " ++ name)) ∧
    (∀ (name : String) (doc : ValidateDoc), doc.ok ≠ 0 →
      (jsLooseNull doc.result = true ∨
        (jsIsString doc.result = true ∧ jsMatchExcCorrupt doc.result = false)) →
      doc.valid = JSValue.boolean false →
      validateCollection name doc = .error ("Error: invalid collection " ++ name)) ∧
    validateCollection "t" ⟨1, JSValue.undef, JSValue.boolean false⟩ =
      .error "Error: invalid collection t" ∧
    validateCollection "t" ⟨1, JSValue.str "exception caught", JSValue.undef⟩ =
      .error "Error: invalid collection t" ∧
    validateCollection "t" ⟨1, JSValue.undef, JSValue.boolean true⟩ =
      .ok ⟨1, JSValue.undef, JSValue.boolean true⟩ := by
  refine ⟨?_, ?_, ?_, ?_, ?_, ?_, ?_⟩
  · intro name doc h
    simp [validateCollection, h]
  · intro name doc hok hnull hstr
    simp [validateCollection, hok, hnull, hstr]
  · intro name doc s hok hres hmatch
    have hnull : jsLooseNull doc.result = false := by rw [hres]; rfl
    have hstr : jsIsString doc.result = true := by rw [hres]; rfl
    simp [validateCollection, hok, hnull, hstr, hmatch]
  · intro name doc hok hres hvalid
    have hv1 : jsLooseNull doc.valid = false := by rw [hvalid]; rfl
    have hv2 : jsTruthy doc.valid = false := by rw [hvalid]; rfl
    rcases hres with hnull | ⟨hstr, hmatch⟩
    · simp [validateCollection, hok, hnull, hv1, hv2]
    · have hnull : jsLooseNull doc.result = false := by
        cases hr : doc.result <;> simp_all [jsIsString, jsLooseNull]
      simp [validateCollection, hok, hnull, hstr, hmatch, hv1, hv2]
  · rfl
  · rfl
  · rfl

/-- C4 witness: the first and fourth checks applied at concrete documents:
`{ok:0}` fails the validate-command check even with `valid:true`, and
`{ok:1, valid:false}` fails the valid check. -/
theorem c4_validateCollection_checks_witness :
    validateCollection "users" ⟨0, JSValue.undef, JSValue.boolean true⟩ =
      .error "Error with validate command" ∧
    validateCollection "users" ⟨1, JSValue.str "ok", JSValue.boolean false⟩ =
      .error "Error: invalid collection users" :=
  ⟨c4_validateCollection_checks.1 "users" ⟨0, JSValue.undef, JSValue.boolean true⟩ rfl,
   c4_validateCollection_checks.2.2.2.1 "users" ⟨1, JSValue.str "ok", JSValue.boolean false⟩
    (by decide) (Or.inr ⟨rfl, by decide⟩) rfl⟩

/-- A response document of a generic admin command: only its `ok` field is
inspected by the embedded callbacks. -/
structure AdminDoc where
  ok : Int
deriving DecidableEq, Repr

/-- Modelled from the spec: `toError` (from `lib/utils`, outside the given
sources) normalizes a raw response document into an error value; the spec
fixes no mapping beyond "takes a document, returns an error", so the model
returns a fixed normalized error tagged with the document's `ok` field. -/
def toError (doc : AdminDoc) : String :=
  "MongoError: ok " ++ toString doc.ok

/-- The second argument the admin callbacks hand to the caller: the raw
document on success, or the JavaScript literal `false` or `null` on failure. -/
inductive CbResult where
  | jsNull
  | jsFalse
  | document (d : AdminDoc)
deriving DecidableEq, Repr

/-- The `serverStatus` helper of `lib/admin.js`: on `err == null && doc.ok === 1`
calls `callback(null, doc)`; otherwise `callback(err, false)` when a
transport error is present, else `callback(toError(doc), false)`. -/
def serverStatus (err : Option String) (doc : AdminDoc) : Option String × CbResult :=
  if err = none ∧ doc.ok = 1 then (none, .document doc)
  else
    match err with
    | some e => (some e, .jsFalse)
    | none => (some (toError doc), .jsFalse)

/-- The `replSetGetStatus` helper of `lib/admin.js`: identical callback
discipline to `serverStatus`. -/
def replSetGetStatus (err : Option String) (doc : AdminDoc) : Option String × CbResult :=
  if err = none ∧ doc.ok = 1 then (none, .document doc)
  else
    match err with
    | some e => (some e, .jsFalse)
    | none => (some (toError doc), .jsFalse)

/-- C6 counterexample: on a transport error, `serverStatus` invokes its
callback with result argument `false`, not `null` — a failure path whose
error is non-null but whose result is the sentinel `false`. -/
theorem c6_counterexample_serverStatus_false_sentinel :
    (serverStatus (some "network error") ⟨1⟩).1 = some "network error" ∧
    (serverStatus (some "network error") ⟨1⟩).2 = CbResult.jsFalse ∧
    (serverStatus (some "network error") ⟨1⟩).2 ≠ CbResult.jsNull := by
  refine ⟨rfl, rfl, by decide⟩

/-- C6 amended: every failure path of `serverStatus` and `replSetGetStatus`
completes through exactly one callback invocation carrying a non-null error
and the sentinel `false` — not `null` — as the result argument, while
`validateCollection` failure paths deliver `(error, null)`. -/
theorem c6_failure_paths_use_false_sentinel (err : Option String) (doc : AdminDoc)
    (hfail : err ≠ none ∨ doc.ok ≠ 1) :
    (serverStatus err doc).1 ≠ none ∧ (serverStatus err doc).2 = CbResult.jsFalse ∧
    (replSetGetStatus err doc).1 ≠ none ∧ (replSetGetStatus err doc).2 = CbResult.jsFalse := by
  cases err with
  | some e =>
    refine ⟨?_, ?_, ?_, ?_⟩ <;> simp [serverStatus, replSetGetStatus]
  | none =>
    have hok : doc.ok ≠ 1 := by
      rcases hfail with h | h
      · exact absurd rfl h
      · exact h
    refine ⟨?_, ?_, ?_, ?_⟩ <;> simp [serverStatus, replSetGetStatus, hok]

/-- C6 amended witness: the failure regime at the concrete input of a logical
command failure (`ok = 0`, no transport error). -/
theorem c6_failure_paths_use_false_sentinel_witness :
    (serverStatus none ⟨0⟩).1 ≠ none ∧ (serverStatus none ⟨0⟩).2 = CbResult.jsFalse ∧
    (replSetGetStatus none ⟨0⟩).1 ≠ none ∧ (replSetGetStatus none ⟨0⟩).2 = CbResult.jsFalse :=
  c6_failure_paths_use_false_sentinel none ⟨0⟩ (Or.inr (by decide))

/-- Modelled from the spec: `hasAtomicOperators` (from `src/utils`, outside
the given sources) — an update document lacking any atomic-update operator
is rejected, so the predicate holds iff the document has at least one
operator key, i.e. a key starting with the dollar sign. -/
def hasAtomicOperators (updateKeys : List String) : Bool :=
  updateKeys.any fun k =>
    match k.toList with
    | c :: _ => c = '$'
    | [] => false

/-- Modelled from the spec: `isObject` (Node's `util.isObject`, outside the
given sources) — whether the value is a well-formed mapping. -/
def isObject : JSValue → Bool
  | .obj _ => true
  | _ => false

/-- The `UpdateOneOperation` constructor of `src/operations/update.ts`:
throws `TypeError` unless `hasAtomicOperators(update)` holds. The update
document is given by its key list; the filter is not validated. -/
def UpdateOneOperationConstruct (filter : JSValue) (updateKeys : List String) :
    Except String Unit :=
  if ¬ hasAtomicOperators updateKeys then
    .error "Update document requires atomic operators"
  else .ok ()

/-- The `UpdateManyOperation` constructor of `src/operations/update.ts`:
performs no validation of the update document or the filter. -/
def UpdateManyOperationConstruct (filter : JSValue) (updateKeys : List String) :
    Except String Unit :=
  .ok ()

/-- The `DeleteOneOperation` constructor of `src/operations/delete.ts`:
performs no validation of the filter. -/
def DeleteOneOperationConstruct (filter : JSValue) : Except String Unit :=
  .ok ()

/-- The `DeleteManyOperation` constructor of `src/operations/delete.ts`:
throws `TypeError` unless `isObject(filter)` holds. -/
def DeleteManyOperationConstruct (filter : JSValue) : Except String Unit :=
  if ¬ isObject filter then .error "filter is a required parameter"
  else .ok ()

/-- C9 counterexample: the "many" update variant accepts an update document
with no atomic-update operator, and the "one" delete variant accepts a
non-mapping filter — neither constructor throws, contradicting the claim
that both variants validate. -/
theorem c9_counterexample_many_one_do_not_validate :
    UpdateManyOperationConstruct (JSValue.obj ["name"]) ["name"] = Except.ok () ∧
    DeleteOneOperationConstruct (JSValue.str "not a mapping") = Except.ok () ∧
    ¬ hasAtomicOperators ["name"] ∧ ¬ isObject (JSValue.str "not a mapping") := by
  refine ⟨rfl, rfl, by decide, by decide⟩

/-- C9 amended: only `UpdateOneOperation` rejects an update document lacking
any atomic-update operator at construction, and only `DeleteManyOperation`
rejects a non-mapping filter at construction; `UpdateManyOperation` and
`DeleteOneOperation` perform no construction-time validation. -/
theorem c9_construction_validation (filter : JSValue) (updateKeys : List String)
    (hnoatomic : hasAtomicOperators updateKeys = false)
    (hnotobj : isObject filter = false) :
    UpdateOneOperationConstruct filter updateKeys =
      Except.error "Update document requires atomic operators" ∧
    DeleteManyOperationConstruct filter = Except.error "filter is a required parameter" ∧
    UpdateManyOperationConstruct filter updateKeys = Except.ok () ∧
    DeleteOneOperationConstruct filter = Except.ok () := by
  refine ⟨?_, ?_, rfl, rfl⟩
  · simp [UpdateOneOperationConstruct, hnoatomic]
  · simp [DeleteManyOperationConstruct, hnotobj]

/-- C9 amended witness: at the filter `"oops"` (a string, not a mapping) and
an update document whose only key is `name` (no atomic operator). -/
theorem c9_construction_validation_witness :
    UpdateOneOperationConstruct (JSValue.str "oops") ["name"] =
      Except.error "Update document requires atomic operators" ∧
    DeleteManyOperationConstruct (JSValue.str "oops") =
      Except.error "filter is a required parameter" ∧
    UpdateManyOperationConstruct (JSValue.str "oops") ["name"] = Except.ok () ∧
    DeleteOneOperationConstruct (JSValue.str "oops") = Except.ok () :=
  c9_construction_validation (JSValue.str "oops") ["name"] (by decide) (by decide)
